import Mathlib

/-!
Shallow embedding of the GLX context backend
(`src/surfman/src/platform/unix/x11/context.rs`). Native GLX/X11 calls are
oracles: their results are parameters, and the native work a function performs
is recorded as an explicit event trace.
-/

namespace Surfman

/-- OpenGL version value object (`GLVersion {major, minor}`); the `u8` fields
are modelled as `Nat` with reduction modulo 256 at the one cast site. -/
structure GLVersion where
  major : Nat
  minor : Nat
deriving DecidableEq, Repr

/-- `ContextAttributeFlags` bit flags ALPHA, DEPTH, STENCIL, modelled as three
booleans. -/
structure ContextAttributeFlags where
  alpha : Bool
  depth : Bool
  stencil : Bool
deriving DecidableEq, Repr

/-- `ContextAttributeFlags::empty()`. -/
def ContextAttributeFlags.empty : ContextAttributeFlags :=
  { alpha := false, depth := false, stencil := false }

/-- `ContextAttributes {flags, version}`. -/
structure ContextAttributes where
  flags : ContextAttributeFlags
  version : GLVersion
deriving DecidableEq, Repr

/-- `WindowingApiError`; only the `Failed` variant is used by this backend. -/
inductive WindowingApiError where
  | failed
deriving DecidableEq, Repr

/-- The error taxonomy of the crate, restricted to the variants this backend
returns. -/
inductive Error where
  | noPixelFormatFound
  | noCurrentContext
  | contextCreationFailed (e : WindowingApiError)
  | makeCurrentFailed (e : WindowingApiError)
  | incompatibleSurface
  | surfaceAlreadyBound
  | externalRenderTarget
  | surfaceSubsystemError (code : Nat)
deriving DecidableEq, Repr

/-- `ContextID` from `crate::context`: a newtype over the shared counter value,
accessed as `.0` in the source. -/
structure ContextID where
  val : Nat
deriving DecidableEq, Repr

/-- Modelled from the spec: the drawables of a Surface (the Surface subsystem
is a collaborator whose source is out of scope). A surface's native drawable is
either an off-screen GLX pixmap or an on-screen window, matching the
`SurfaceDrawables::Pixmap { glx_pixmap, .. }` and `SurfaceDrawables::Window
{ window }` patterns the context code matches on. Drawable handles are `Nat`. -/
inductive SurfaceDrawables where
  | pixmap (glx_pixmap : Nat)
  | window (window : Nat)
deriving DecidableEq, Repr

/-- Modelled from the spec: a Surface carries the identity of the Context it
was created for (`surface.context_id`) and its native drawables; pixel storage
is out of scope. -/
structure Surface where
  context_id : ContextID
  drawables : SurfaceDrawables
deriving DecidableEq, Repr

/-- Modelled from the spec: `Framebuffer` from `crate::surface`, the tagged
union of binding states — `None` (unbound), `Surface` (bound), `External` —
specialised to this backend's `Surface`, exactly as matched throughout
`context.rs`. -/
inductive Framebuffer where
  | none
  | surface (s : Surface)
  | external
deriving DecidableEq, Repr

/-- Events of native GLX/X11 work, recorded in the order the source performs
the calls. `destroySurfaceCall` stands for the one call into the Surface
subsystem's destroy operation. Handles are `Nat`, with `0` for a null
pointer/drawable. -/
inductive NativeEvent where
  | makeCurrent (drawable : Nat) (ctx : Nat)
  | destroyGLXContext (ctx : Nat)
  | destroyPixmap (pixmap : Nat)
  | glFlush
  | swapBuffers (drawable : Nat)
  | destroySurfaceCall (id : ContextID)
deriving DecidableEq, Repr

/-- The `NativeContext` capability: `owned` is `OwnedGLXContext` (created the
native context, must destroy it), `ref` is the borrowed variant (adopted
context, must not destroy it). The raw `GLXContext` handle is a `Nat`; `0`
models a null pointer. -/
inductive NativeContext where
  | owned (glx_context : Nat)
  | ref (glx_context : Nat)
deriving DecidableEq, Repr

/-- `NativeContext::glx_context()`: the raw handle (both variants return the
stored pointer). -/
def NativeContext.glx_context : NativeContext → Nat
  | .owned h => h
  | .ref h => h

/-- `NativeContext::is_destroyed()`: both variants report destroyed iff the
stored handle is null. -/
def NativeContext.is_destroyed (n : NativeContext) : Bool :=
  n.glx_context == 0

/-- `NativeContext::destroy()`. The owned variant calls
`glXMakeCurrent(display, 0, null)` and then `glXDestroyContext` before nulling
the handle; the borrowed variant only nulls its local reference and performs no
native call. Returns the updated capability and the native events. (The
source's `assert!(!self.is_destroyed())` holds at every call site because
`destroy_context` guards on `is_destroyed` first.) -/
def NativeContext.destroy : NativeContext → NativeContext × List NativeEvent
  | .owned h => (.owned 0, [.makeCurrent 0 0, .destroyGLXContext h])
  | .ref _ => (.ref 0, [])

/-- The `Context` struct: native capability, process-unique id, framebuffer
binding, GL version, and the dummy (scratch) pixmap pair. -/
structure Context where
  native_context : NativeContext
  id : ContextID
  framebuffer : Framebuffer
  gl_version : GLVersion
  dummy_glx_pixmap : Nat
  dummy_pixmap : Nat
deriving DecidableEq, Repr

/-- `impl Drop for Context`: returns `true` iff the drop panics, i.e. iff the
native context is not destroyed and the thread is not already panicking. -/
def contextDropPanics (thread_panicking : Bool) (c : Context) : Bool :=
  !c.native_context.is_destroyed && !thread_panicking

/-- An opaque GLX framebuffer config, described by the attributes this backend
reads back: its `GLX_FBCONFIG_ID` and its alpha/depth/stencil sizes. -/
structure FBConfig where
  fbconfig_id : Nat
  alpha_size : Int
  depth_size : Int
  stencil_size : Int
deriving DecidableEq, Repr

/-- Oracle for the GLX config queries. `chooseFBConfig` is
`glXChooseFBConfig` + "take the first result", keyed by the three variable
attribute values (alpha, depth, stencil sizes) of the fixed attribute list
`create_context_descriptor` builds; `none` models an empty result.
`configFromId` is `get_fb_config_from_id` (reverse lookup of a config by its
`GLX_FBCONFIG_ID`; the source `expect`s success). -/
structure GlxEnv where
  chooseFBConfig : Int → Int → Int → Option FBConfig
  configFromId : Nat → FBConfig

/-- `ContextDescriptor {pixmap_glx_fb_config_id, gl_version}`. -/
structure ContextDescriptor where
  pixmap_glx_fb_config_id : Nat
  gl_version : GLVersion
deriving DecidableEq, Repr

/-- `Device::create_context_descriptor`: computes alpha/depth/stencil sizes
(8/24/8 when the flag is requested, else 0), queries the configs matching the
attribute list, takes the first one's `GLX_FBCONFIG_ID`, and pairs it with the
requested GL version. Fails with `NoPixelFormatFound` when the query is
empty. -/
def create_context_descriptor (env : GlxEnv) (attributes : ContextAttributes) :
    Except Error ContextDescriptor :=
  let flags := attributes.flags
  let alpha_size : Int := if flags.alpha then 8 else 0
  let depth_size : Int := if flags.depth then 24 else 0
  let stencil_size : Int := if flags.stencil then 8 else 0
  match env.chooseFBConfig alpha_size depth_size stencil_size with
  | Option.none => Except.error Error.noPixelFormatFound
  | Option.some cfg =>
      Except.ok { pixmap_glx_fb_config_id := cfg.fbconfig_id
                  gl_version := attributes.version }

/-- `Device::context_descriptor_attributes`: resolves the stored config id back
to a config, reads its alpha/depth/stencil sizes, and sets each capability flag
iff the corresponding size is nonzero; the version is the stored one. -/
def context_descriptor_attributes (env : GlxEnv) (cd : ContextDescriptor) :
    ContextAttributes :=
  let cfg := env.configFromId cd.pixmap_glx_fb_config_id
  let attribute_flags : ContextAttributeFlags :=
    { alpha := cfg.alpha_size != 0
      depth := cfg.depth_size != 0
      stencil := cfg.stencil_size != 0 }
  { flags := attribute_flags, version := cd.gl_version }

/-- The drawable `make_context_current` passes for a bound surface: the GLX
pixmap for `Pixmap` drawables, the window for `Window` drawables. -/
def surfaceGLXDrawable (s : Surface) : Nat :=
  match s.drawables with
  | SurfaceDrawables.pixmap p => p
  | SurfaceDrawables.window w => w

/-- `Device::make_context_current`. `mcOk` is the oracle for the boolean result
of the native `glXMakeCurrent` call. Resolves the drawable from the binding
state (bound surface's drawable, or the dummy pixmap when unbound), failing
with `ExternalRenderTarget` on `External` before any native call; the native
call, when reached, is recorded as a `makeCurrent` event and a `False` result
becomes `MakeCurrentFailed`. -/
def make_context_current (mcOk : Bool) (context : Context) :
    Except Error Unit × List NativeEvent :=
  let glx_context := context.native_context.glx_context
  match context.framebuffer with
  | Framebuffer.external => (Except.error Error.externalRenderTarget, [])
  | Framebuffer.surface s =>
      ((if mcOk then Except.ok ()
        else Except.error (Error.makeCurrentFailed WindowingApiError.failed)),
       [NativeEvent.makeCurrent (surfaceGLXDrawable s) glx_context])
  | Framebuffer.none =>
      ((if mcOk then Except.ok ()
        else Except.error (Error.makeCurrentFailed WindowingApiError.failed)),
       [NativeEvent.makeCurrent context.dummy_glx_pixmap glx_context])

/-- `Device::bind_surface_to_context`: rejects a surface whose owning-context
id differs from the context's id, else transitions `None → Surface(surface)`,
failing with `ExternalRenderTarget` on `External` and `SurfaceAlreadyBound` on
`Surface`. The returned context is the (possibly unchanged) state after the
call. -/
def bind_surface_to_context (context : Context) (surface : Surface) :
    Except Error Unit × Context :=
  if context.id ≠ surface.context_id then
    (Except.error Error.incompatibleSurface, context)
  else
    match context.framebuffer with
    | Framebuffer.none =>
        (Except.ok (), { context with framebuffer := Framebuffer.surface surface })
    | Framebuffer.external => (Except.error Error.externalRenderTarget, context)
    | Framebuffer.surface _ => (Except.error Error.surfaceAlreadyBound, context)

/-- `Device::flush_context_surface`: makes the context current (propagating its
error), then flushes and swaps buffers only when the bound drawable is a
pixmap; nothing further for window drawables or when no surface is bound. -/
def flush_context_surface (mcOk : Bool) (context : Context) :
    Except Error Unit × List NativeEvent :=
  match make_context_current mcOk context with
  | (Except.error e, evs) => (Except.error e, evs)
  | (Except.ok _, evs) =>
      match context.framebuffer with
      | Framebuffer.surface s =>
          match s.drawables with
          | SurfaceDrawables.pixmap p =>
              (Except.ok (), evs ++ [NativeEvent.glFlush, NativeEvent.swapBuffers p])
          | SurfaceDrawables.window _ => (Except.ok (), evs)
      | _ => (Except.ok (), evs)

/-- `Device::unbind_surface_from_context`: flushes (dropping the result), then
`mem::replace`s the framebuffer with `None` unconditionally and matches on the
old value: a bound surface is returned, `None` yields `Option.none`, and
`External` yields `ExternalRenderTarget` — with the replacement already done.
Returns (result, context after the call, native events). -/
def unbind_surface_from_context (mcOk : Bool) (context : Context) :
    Except Error (Option Surface) × Context × List NativeEvent :=
  let flushed := flush_context_surface mcOk context
  let old := context.framebuffer
  let context := { context with framebuffer := Framebuffer.none }
  match old with
  | Framebuffer.surface surface => (Except.ok (Option.some surface), context, flushed.2)
  | Framebuffer.none => (Except.ok Option.none, context, flushed.2)
  | Framebuffer.external => (Except.error Error.externalRenderTarget, context, flushed.2)

/-- `Device::destroy_context`. `dsr` is the oracle for the Surface subsystem's
`destroy_surface` result on the bound surface, whose call is recorded as a
`destroySurfaceCall` event. Already-destroyed contexts return `Ok` at once with
no native work. Otherwise the framebuffer is `mem::replace`d with `None`; a
bound surface is destroyed first (its error propagating), then the dummy GLX
pixmap is destroyed and zeroed, then the native capability's destroy runs.
Returns (result, context after the call, native events). -/
def destroy_context (dsr : Surface → Except Error Unit) (context : Context) :
    Except Error Unit × Context × List NativeEvent :=
  if context.native_context.is_destroyed then
    (Except.ok (), context, [])
  else
    let old := context.framebuffer
    let context := { context with framebuffer := Framebuffer.none }
    let surfaceStep : Except Error Unit × List NativeEvent :=
      match old with
      | Framebuffer.surface surface =>
          (dsr surface, [NativeEvent.destroySurfaceCall surface.context_id])
      | _ => (Except.ok (), [])
    match surfaceStep with
    | (Except.error e, evs) => (Except.error e, context, evs)
    | (Except.ok _, evs) =>
        let evs := evs ++ [NativeEvent.destroyPixmap context.dummy_glx_pixmap]
        let context := { context with dummy_glx_pixmap := 0 }
        let destroyed := context.native_context.destroy
        (Except.ok (), { context with native_context := destroyed.1 }, evs ++ destroyed.2)

/-- Oracle for `Device::create_context`'s native calls: the handle returned by
`glXCreateContextAttribsARB` (0 models null) and the result of
`surface::create_pixmaps` for the dummy pixmaps. -/
structure CreateEnv where
  new_glx_context : Nat
  create_pixmaps : Except Error (Nat × Nat)
deriving Repr

/-- `Device::create_context`: under the creation lock (modelled by explicit
counter passing), fails with `ContextCreationFailed` on a null native handle,
propagates dummy-pixmap creation errors, and otherwise builds an `owned`
context in `Framebuffer::None` with `id := *next_context_id`, incrementing the
counter. Returns (result, counter after the call). -/
def create_context (env : CreateEnv) (descriptor : ContextDescriptor)
    (next_context_id : ContextID) : Except Error Context × ContextID :=
  if env.new_glx_context = 0 then
    (Except.error (Error.contextCreationFailed WindowingApiError.failed), next_context_id)
  else
    match env.create_pixmaps with
    | Except.error e => (Except.error e, next_context_id)
    | Except.ok (dummy_glx_pixmap, dummy_pixmap) =>
        (Except.ok
          { native_context := NativeContext.owned env.new_glx_context
            id := next_context_id
            framebuffer := Framebuffer.none
            gl_version := descriptor.gl_version
            dummy_glx_pixmap := dummy_glx_pixmap
            dummy_pixmap := dummy_pixmap },
         { val := next_context_id.val + 1 })

/-- Oracle for `Device::from_current_context`'s native reads: the current GLX
display and context handles (0 models null; the source asserts the context
handle nonnull once the display is), the `glGetIntegerv` major/minor version
reads, the active config id from `glXQueryContext`, and the dummy-pixmap
creation result. -/
structure AdoptEnv where
  current_glx_display : Nat
  current_glx_context : Nat
  major_gl_version : Nat
  minor_gl_version : Nat
  fb_config_id : Nat
  create_pixmaps : Except Error (Nat × Nat)
deriving Repr

/-- `Device::from_current_context`: under the creation lock (modelled by
explicit counter passing), fails with `NoCurrentContext` on a null current
display, propagates dummy-pixmap creation errors, and otherwise wraps the
current native context in the borrowed (`ref`) capability, in
`Framebuffer::External`, with the queried GL version cast to `u8` and
`id := *next_context_id`, incrementing the counter. -/
def from_current_context (env : AdoptEnv) (next_context_id : ContextID) :
    Except Error Context × ContextID :=
  if env.current_glx_display = 0 then
    (Except.error Error.noCurrentContext, next_context_id)
  else
    match env.create_pixmaps with
    | Except.error e => (Except.error e, next_context_id)
    | Except.ok (dummy_glx_pixmap, dummy_pixmap) =>
        (Except.ok
          { native_context := NativeContext.ref env.current_glx_context
            id := next_context_id
            framebuffer := Framebuffer.external
            gl_version :=
              { major := env.major_gl_version % 256, minor := env.minor_gl_version % 256 }
            dummy_glx_pixmap := dummy_glx_pixmap
            dummy_pixmap := dummy_pixmap },
         { val := next_context_id.val + 1 })

/-- One context-creation attempt: either `create_context` with its oracle and
descriptor, or `from_current_context` with its oracle. Since both paths hold
`CREATE_CONTEXT_MUTEX` across "read id, build, increment", any concurrent
history of creations is equivalent to a sequence of these steps. -/
inductive CreationStep where
  | create (env : CreateEnv) (descriptor : ContextDescriptor)
  | adopt (env : AdoptEnv)

/-- Runs one creation step against the shared counter. -/
def runCreation : CreationStep → ContextID → Except Error Context × ContextID
  | CreationStep.create env d, n => create_context env d n
  | CreationStep.adopt env, n => from_current_context env n

/-- The counter after a sequence of creation steps. -/
def runCreations : List CreationStep → ContextID → ContextID
  | [], n => n
  | s :: rest, n => runCreations rest (runCreation s n).2

/-- The identities assigned to the successfully created contexts of a sequence
of creation steps, in order. -/
def creationIds : List CreationStep → ContextID → List Nat
  | [], _ => []
  | s :: rest, n =>
      match runCreation s n with
      | (Except.ok c, nn) => c.id.val :: creationIds rest nn
      | (Except.error _, nn) => creationIds rest nn

/-- The context current on the thread after a trace of native events, starting
from `init`: each `makeCurrent` event overwrites it with its context argument
(`0` = no context). -/
def currentAfter (init : Nat) (evs : List NativeEvent) : Nat :=
  evs.foldl
    (fun cur ev =>
      match ev with
      | NativeEvent.makeCurrent _ c => c
      | _ => cur)
    init

/-! Concrete example values used by the witness theorems. -/

/-- A surface owned by the context with identity 4, with a pixmap drawable. -/
def surfEx : Surface :=
  { context_id := { val := 4 }, drawables := SurfaceDrawables.pixmap 21 }

/-- A live owned context with identity 4, unbound. -/
def unboundCtxEx : Context :=
  { native_context := NativeContext.owned 7
    id := { val := 4 }
    framebuffer := Framebuffer.none
    gl_version := { major := 3, minor := 3 }
    dummy_glx_pixmap := 11
    dummy_pixmap := 12 }

/-- The same context bound to `surfEx`. -/
def boundCtxEx : Context :=
  { unboundCtxEx with framebuffer := Framebuffer.surface surfEx }

/-- The same context in the `External` binding state. -/
def extCtxEx : Context :=
  { unboundCtxEx with framebuffer := Framebuffer.external }

/-- C2: `bind_surface_to_context` takes `Unbound` to `Bound(surface)` on
success; an owning-context identity mismatch fails with `IncompatibleSurface`
before any state change; `External` fails with `ExternalRenderTarget`; `Bound`
fails with `SurfaceAlreadyBound`; and every failure leaves the context's
binding state (indeed the whole context) unchanged. -/
theorem bind_surface_state_machine (c : Context) (s : Surface) :
    (c.id ≠ s.context_id →
      bind_surface_to_context c s = (Except.error Error.incompatibleSurface, c)) ∧
    (c.id = s.context_id → c.framebuffer = Framebuffer.none →
      bind_surface_to_context c s =
        (Except.ok (), { c with framebuffer := Framebuffer.surface s })) ∧
    (c.id = s.context_id → c.framebuffer = Framebuffer.external →
      bind_surface_to_context c s = (Except.error Error.externalRenderTarget, c)) ∧
    (∀ s0, c.id = s.context_id → c.framebuffer = Framebuffer.surface s0 →
      bind_surface_to_context c s = (Except.error Error.surfaceAlreadyBound, c)) := by
  unfold bind_surface_to_context
  refine ⟨fun h => ?_, fun h hf => ?_, fun h hf => ?_, fun s0 h hf => ?_⟩
  · simp [h]
  · simp [h, hf]
  · simp [h, hf]
  · simp [h, hf]

theorem bind_surface_state_machine_witness :
    bind_surface_to_context unboundCtxEx surfEx =
      (Except.ok (), { unboundCtxEx with framebuffer := Framebuffer.surface surfEx }) :=
  (bind_surface_state_machine unboundCtxEx surfEx).2.1 rfl rfl

/-- C4: `make_context_current` resolves the native drawable as the bound
surface's drawable when `Bound`, the dummy (scratch) pixmap when `Unbound`,
invoking the native `glXMakeCurrent` entry point exactly once there and failing
with `MakeCurrentFailed` when the native call reports failure; on `External`
it fails with `ExternalRenderTarget` with an empty native trace, so the native
entry point is never invoked. -/
theorem make_current_drawable_resolution (mcOk : Bool) (c : Context) :
    (∀ s, c.framebuffer = Framebuffer.surface s →
      make_context_current mcOk c =
        ((if mcOk then Except.ok ()
          else Except.error (Error.makeCurrentFailed WindowingApiError.failed)),
         [NativeEvent.makeCurrent (surfaceGLXDrawable s) c.native_context.glx_context])) ∧
    (c.framebuffer = Framebuffer.none →
      make_context_current mcOk c =
        ((if mcOk then Except.ok ()
          else Except.error (Error.makeCurrentFailed WindowingApiError.failed)),
         [NativeEvent.makeCurrent c.dummy_glx_pixmap c.native_context.glx_context])) ∧
    (c.framebuffer = Framebuffer.external →
      make_context_current mcOk c = (Except.error Error.externalRenderTarget, [])) := by
  unfold make_context_current
  refine ⟨fun s hf => ?_, fun hf => ?_, fun hf => ?_⟩ <;> simp [hf]

theorem make_current_drawable_resolution_witness :
    make_context_current true extCtxEx = (Except.error Error.externalRenderTarget, []) :=
  (make_current_drawable_resolution true extCtxEx).2.2 rfl

/-- C1: on an `External` context, `unbind_surface_from_context` does fail with
`ExternalRenderTarget`, but — because the source `mem::replace`s the
framebuffer with `Framebuffer::None` before matching on the old value — the
binding state after the failed call is `None`, not `External`; a subsequent
`bind_surface_to_context` with a matching surface then succeeds, contradicting
the documented guarantee that binding operations on adopted contexts always
fail. -/
theorem unbind_external_resets_binding :
    (unbind_surface_from_context true extCtxEx).1 =
        Except.error Error.externalRenderTarget ∧
    extCtxEx.framebuffer = Framebuffer.external ∧
    (unbind_surface_from_context true extCtxEx).2.1.framebuffer = Framebuffer.none ∧
    (bind_surface_to_context (unbind_surface_from_context true extCtxEx).2.1 surfEx).1 =
        Except.ok () :=
  ⟨rfl, rfl, rfl, rfl⟩

/-- C9: `flush_context_surface` emits the flush-and-present native calls
(`glFlush`, `glXSwapBuffers`) only when the bound drawable is an off-screen
pixmap; for a bound on-screen window drawable and for an unbound context it
performs no flush/present work (only the make-current call it starts with). -/
theorem flush_surface_only_pixmap (c : Context) :
    (∀ s p, c.framebuffer = Framebuffer.surface s →
        s.drawables = SurfaceDrawables.pixmap p →
      flush_context_surface true c =
        (Except.ok (),
         [NativeEvent.makeCurrent p c.native_context.glx_context,
          NativeEvent.glFlush, NativeEvent.swapBuffers p])) ∧
    (∀ s w, c.framebuffer = Framebuffer.surface s →
        s.drawables = SurfaceDrawables.window w →
      flush_context_surface true c =
        (Except.ok (), [NativeEvent.makeCurrent w c.native_context.glx_context])) ∧
    (c.framebuffer = Framebuffer.none →
      flush_context_surface true c =
        (Except.ok (),
         [NativeEvent.makeCurrent c.dummy_glx_pixmap c.native_context.glx_context])) ∧
    (∀ mcOk, NativeEvent.glFlush ∈ (flush_context_surface mcOk c).2 →
      ∃ s p, c.framebuffer = Framebuffer.surface s ∧
        s.drawables = SurfaceDrawables.pixmap p) := by
  refine ⟨fun s p hf hd => ?_, fun s w hf hd => ?_, fun hf => ?_, fun mcOk hmem => ?_⟩
  · simp [flush_context_surface, make_context_current, hf, hd, surfaceGLXDrawable]
  · simp [flush_context_surface, make_context_current, hf, hd, surfaceGLXDrawable]
  · simp [flush_context_surface, make_context_current, hf]
  · cases hfb : c.framebuffer with
    | none =>
        cases mcOk <;>
          simp [flush_context_surface, make_context_current, hfb] at hmem
    | external =>
        simp [flush_context_surface, make_context_current, hfb] at hmem
    | surface s =>
        cases hd : s.drawables with
        | pixmap p => exact ⟨s, p, rfl, hd⟩
        | window w =>
            cases mcOk <;>
              simp [flush_context_surface, make_context_current, hfb, hd,
                surfaceGLXDrawable] at hmem

theorem flush_surface_only_pixmap_witness :
    flush_context_surface true boundCtxEx =
      (Except.ok (),
       [NativeEvent.makeCurrent 21 7, NativeEvent.glFlush,
        NativeEvent.swapBuffers 21]) :=
  (flush_surface_only_pixmap boundCtxEx).1 surfEx 21 rfl rfl

/-- Both `NativeContext` variants report destroyed after their destroy
operation (each nulls the stored handle). -/
theorem NativeContext.destroy_is_destroyed (n : NativeContext) :
    n.destroy.1.is_destroyed = true := by
  cases n <;> rfl

/-- `destroy_context` on an already-destroyed context: immediate success, no
state change, no native work. -/
theorem destroy_context_of_destroyed (dsr : Surface → Except Error Unit) (c : Context)
    (h : c.native_context.is_destroyed = true) :
    destroy_context dsr c = (Except.ok (), c, []) := by
  simp [destroy_context, h]

/-- `destroy_context` on a live context whose bound surface (if any) destroys
cleanly: success, the handle nulled, and the native trace in source order —
surface destroy, dummy-pixmap destroy, then the capability's destroy events. -/
theorem destroy_context_not_destroyed (dsr : Surface → Except Error Unit) (c : Context)
    (h : c.native_context.is_destroyed = false)
    (hdsr : ∀ s, c.framebuffer = Framebuffer.surface s → dsr s = Except.ok ()) :
    destroy_context dsr c =
      (Except.ok (),
       { c with framebuffer := Framebuffer.none, dummy_glx_pixmap := 0,
                native_context := c.native_context.destroy.1 },
       (match c.framebuffer with
        | Framebuffer.surface s => [NativeEvent.destroySurfaceCall s.context_id]
        | _ => []) ++
       [NativeEvent.destroyPixmap c.dummy_glx_pixmap] ++ c.native_context.destroy.2) := by
  cases hf : c.framebuffer with
  | none => simp [destroy_context, h, hf]
  | external => simp [destroy_context, h, hf]
  | surface s => simp [destroy_context, h, hf, hdsr s hf]

/-- A successful `destroy_context` always leaves the native handle marked
destroyed. -/
theorem destroy_context_ok_destroyed (dsr : Surface → Except Error Unit)
    (c cc : Context) (evs : List NativeEvent)
    (h : destroy_context dsr c = (Except.ok (), cc, evs)) :
    cc.native_context.is_destroyed = true := by
  by_cases hd : c.native_context.is_destroyed = true
  · rw [destroy_context_of_destroyed dsr c hd] at h
    simp at h
    obtain ⟨h1, -⟩ := h
    exact h1 ▸ hd
  · rw [Bool.not_eq_true] at hd
    cases hf : c.framebuffer with
    | none =>
        simp [destroy_context, hd, hf] at h
        obtain ⟨h1, -⟩ := h
        subst h1
        exact NativeContext.destroy_is_destroyed c.native_context
    | external =>
        simp [destroy_context, hd, hf] at h
        obtain ⟨h1, -⟩ := h
        subst h1
        exact NativeContext.destroy_is_destroyed c.native_context
    | surface s =>
        cases hds : dsr s with
        | error e => simp [destroy_context, hd, hf, hds] at h
        | ok u =>
            cases u
            simp [destroy_context, hd, hf, hds] at h
            obtain ⟨h1, -⟩ := h
            subst h1
            exact NativeContext.destroy_is_destroyed c.native_context

/-- C3: `destroy_context` is idempotent. Already destroyed: immediate success,
no state change, no native work. Live with a cleanly-destroying bound surface:
success, trace = surface destroy (when bound) then scratch-pixmap destroy then
the capability's destroy, handle marked destroyed, and a second call succeeds
with no native work. A bound surface's destroy error is propagated. -/
theorem destroy_context_idempotent (dsr : Surface → Except Error Unit) (c : Context) :
    (c.native_context.is_destroyed = true →
      destroy_context dsr c = (Except.ok (), c, [])) ∧
    (c.native_context.is_destroyed = false →
      (∀ s, c.framebuffer = Framebuffer.surface s → dsr s = Except.ok ()) →
      destroy_context dsr c =
        (Except.ok (),
         { c with framebuffer := Framebuffer.none, dummy_glx_pixmap := 0,
                  native_context := c.native_context.destroy.1 },
         (match c.framebuffer with
          | Framebuffer.surface s => [NativeEvent.destroySurfaceCall s.context_id]
          | _ => []) ++
         [NativeEvent.destroyPixmap c.dummy_glx_pixmap] ++ c.native_context.destroy.2) ∧
      ({ c with framebuffer := Framebuffer.none, dummy_glx_pixmap := 0,
                native_context := c.native_context.destroy.1 } :
          Context).native_context.is_destroyed = true ∧
      destroy_context dsr
          { c with framebuffer := Framebuffer.none, dummy_glx_pixmap := 0,
                   native_context := c.native_context.destroy.1 } =
        (Except.ok (),
         { c with framebuffer := Framebuffer.none, dummy_glx_pixmap := 0,
                  native_context := c.native_context.destroy.1 },
         [])) ∧
    (∀ s e, c.native_context.is_destroyed = false →
      c.framebuffer = Framebuffer.surface s → dsr s = Except.error e →
      (destroy_context dsr c).1 = Except.error e) := by
  refine ⟨fun h => destroy_context_of_destroyed dsr c h,
          fun h hdsr =>
            ⟨destroy_context_not_destroyed dsr c h hdsr,
             NativeContext.destroy_is_destroyed c.native_context,
             destroy_context_of_destroyed dsr _
               (NativeContext.destroy_is_destroyed c.native_context)⟩,
          fun s e h hf hds => ?_⟩
  simp [destroy_context, h, hf, hds]

/-- The surface-destroy oracle that always succeeds. -/
def dsrOkEx : Surface → Except Error Unit := fun _ => Except.ok ()

theorem destroy_context_idempotent_witness :
    destroy_context dsrOkEx boundCtxEx =
      (Except.ok (),
       { boundCtxEx with framebuffer := Framebuffer.none, dummy_glx_pixmap := 0,
                         native_context := boundCtxEx.native_context.destroy.1 },
       (match boundCtxEx.framebuffer with
        | Framebuffer.surface s => [NativeEvent.destroySurfaceCall s.context_id]
        | _ => []) ++
       [NativeEvent.destroyPixmap boundCtxEx.dummy_glx_pixmap] ++
       boundCtxEx.native_context.destroy.2) ∧
    ({ boundCtxEx with framebuffer := Framebuffer.none, dummy_glx_pixmap := 0,
                       native_context := boundCtxEx.native_context.destroy.1 } :
        Context).native_context.is_destroyed = true ∧
    destroy_context dsrOkEx
        { boundCtxEx with framebuffer := Framebuffer.none, dummy_glx_pixmap := 0,
                          native_context := boundCtxEx.native_context.destroy.1 } =
      (Except.ok (),
       { boundCtxEx with framebuffer := Framebuffer.none, dummy_glx_pixmap := 0,
                         native_context := boundCtxEx.native_context.destroy.1 },
       []) :=
  (destroy_context_idempotent dsrOkEx boundCtxEx).2.1 rfl (fun _ _ => rfl)

/-- C5: dropping a Context panics exactly when it was not destroyed and the
thread is not already unwinding; during unwinding the undestroyed drop is
tolerated silently; and after any successful `destroy_context` the resulting
context drops without panicking. -/
theorem drop_requires_destroy (pk : Bool) (dsr : Surface → Except Error Unit)
    (c : Context) :
    (c.native_context.is_destroyed = false → pk = false →
      contextDropPanics pk c = true) ∧
    (pk = true → contextDropPanics pk c = false) ∧
    (∀ cc evs, destroy_context dsr c = (Except.ok (), cc, evs) →
      contextDropPanics pk cc = false) := by
  refine ⟨fun h1 h2 => ?_, fun h => ?_, fun cc evs hdc => ?_⟩
  · simp [contextDropPanics, h1, h2]
  · simp [contextDropPanics, h]
  · simp [contextDropPanics, destroy_context_ok_destroyed dsr c cc evs hdc]

theorem drop_requires_destroy_witness :
    contextDropPanics false unboundCtxEx = true :=
  (drop_requires_destroy false dsrOkEx unboundCtxEx).1 rfl rfl

/-- C10: destroying a live owned context nulls the thread's current context:
the trace ends with `glXMakeCurrent(display, 0, null)` immediately followed by
`glXDestroyContext`, and after any trace ending in that pair no context is
current. -/
theorem destroy_owned_detaches_current (dsr : Surface → Except Error Unit)
    (c : Context) (h : Nat) (hnc : c.native_context = NativeContext.owned h)
    (hnz : h ≠ 0)
    (hdsr : ∀ s, c.framebuffer = Framebuffer.surface s → dsr s = Except.ok ()) :
    destroy_context dsr c =
      (Except.ok (),
       { c with framebuffer := Framebuffer.none, dummy_glx_pixmap := 0,
                native_context := NativeContext.owned 0 },
       (match c.framebuffer with
        | Framebuffer.surface s => [NativeEvent.destroySurfaceCall s.context_id]
        | _ => []) ++
       [NativeEvent.destroyPixmap c.dummy_glx_pixmap] ++
       [NativeEvent.makeCurrent 0 0, NativeEvent.destroyGLXContext h]) ∧
    (∀ init evs0,
      currentAfter init
        (evs0 ++ [NativeEvent.makeCurrent 0 0, NativeEvent.destroyGLXContext h]) = 0) := by
  have hd : c.native_context.is_destroyed = false := by
    rw [hnc]
    simp [NativeContext.is_destroyed, NativeContext.glx_context, hnz]
  constructor
  · rw [destroy_context_not_destroyed dsr c hd hdsr, hnc]
    rfl
  · intro init evs0
    simp [currentAfter, List.foldl_append]

theorem destroy_owned_detaches_current_witness :
    destroy_context dsrOkEx boundCtxEx =
      (Except.ok (),
       { boundCtxEx with framebuffer := Framebuffer.none, dummy_glx_pixmap := 0,
                         native_context := NativeContext.owned 0 },
       (match boundCtxEx.framebuffer with
        | Framebuffer.surface s => [NativeEvent.destroySurfaceCall s.context_id]
        | _ => []) ++
       [NativeEvent.destroyPixmap boundCtxEx.dummy_glx_pixmap] ++
       [NativeEvent.makeCurrent 0 0, NativeEvent.destroyGLXContext 7]) :=
  (destroy_owned_detaches_current dsrOkEx boundCtxEx 7 rfl (by decide)
    (fun _ _ => rfl)).1

/-- A creation oracle whose native calls all succeed. -/
def cenvEx : CreateEnv :=
  { new_glx_context := 9, create_pixmaps := Except.ok (11, 12) }

/-- An adoption oracle with a live current display and context. -/
def aenvEx : AdoptEnv :=
  { current_glx_display := 5, current_glx_context := 9, major_gl_version := 4,
    minor_gl_version := 6, fb_config_id := 42, create_pixmaps := Except.ok (11, 12) }

/-- A descriptor for the witnesses. -/
def cdEx : ContextDescriptor :=
  { pixmap_glx_fb_config_id := 42, gl_version := { major := 3, minor := 3 } }

/-- The context `create_context cenvEx cdEx ⟨0⟩` produces. -/
def createdCtxEx : Context :=
  { native_context := NativeContext.owned 9
    id := { val := 0 }
    framebuffer := Framebuffer.none
    gl_version := { major := 3, minor := 3 }
    dummy_glx_pixmap := 11
    dummy_pixmap := 12 }

/-- The context `from_current_context aenvEx ⟨0⟩` produces. -/
def adoptedCtxEx : Context :=
  { native_context := NativeContext.ref 9
    id := { val := 0 }
    framebuffer := Framebuffer.external
    gl_version := { major := 4, minor := 6 }
    dummy_glx_pixmap := 11
    dummy_pixmap := 12 }

/-- C8: a context produced by `create_context` starts `Unbound`
(`Framebuffer::None`) with the owned capability; a context produced by
`from_current_context` starts `External` with the borrowed capability, whose
destroy performs no native call at all (in particular never the native
context-destroy). -/
theorem initial_binding_state (cenv : CreateEnv) (d : ContextDescriptor)
    (aenv : AdoptEnv) (n m : ContextID) :
    (∀ c nn, create_context cenv d n = (Except.ok c, nn) →
      c.framebuffer = Framebuffer.none ∧
      c.native_context = NativeContext.owned cenv.new_glx_context) ∧
    (∀ c nn, from_current_context aenv m = (Except.ok c, nn) →
      c.framebuffer = Framebuffer.external ∧
      c.native_context = NativeContext.ref aenv.current_glx_context ∧
      c.native_context.destroy.2 = []) := by
  constructor
  · intro c nn h
    unfold create_context at h
    split at h
    · simp at h
    · split at h
      · simp at h
      · simp at h
        obtain ⟨h1, -⟩ := h
        subst h1
        exact ⟨rfl, rfl⟩
  · intro c nn h
    unfold from_current_context at h
    split at h
    · simp at h
    · split at h
      · simp at h
      · simp at h
        obtain ⟨h1, -⟩ := h
        subst h1
        exact ⟨rfl, rfl, rfl⟩

theorem initial_binding_state_witness :
    (createdCtxEx.framebuffer = Framebuffer.none ∧
     createdCtxEx.native_context = NativeContext.owned 9) ∧
    (adoptedCtxEx.framebuffer = Framebuffer.external ∧
     adoptedCtxEx.native_context = NativeContext.ref 9 ∧
     adoptedCtxEx.native_context.destroy.2 = []) :=
  ⟨(initial_binding_state cenvEx cdEx aenvEx { val := 0 } { val := 0 }).1
      createdCtxEx { val := 1 } rfl,
   (initial_binding_state cenvEx cdEx aenvEx { val := 0 } { val := 0 }).2
      adoptedCtxEx { val := 1 } rfl⟩

/-- C6: the attribute round trip. If the native query returns a first config
whose alpha/depth/stencil presence agrees with the requested sizes (8/24/8 for
a requested flag, 0 otherwise — what `glXChooseFBConfig` guarantees for the
nonzero minimums and the config-matching model guarantees for the zeros), and
config-id lookup resolves the chosen config's id back to it, then
`create_context_descriptor` succeeds and `context_descriptor_attributes` on its
descriptor reproduces exactly the requested ALPHA/DEPTH/STENCIL flags and GL
version. -/
theorem descriptor_attributes_round_trip (env : GlxEnv) (a : ContextAttributes)
    (cfg : FBConfig)
    (hchoose : env.chooseFBConfig (if a.flags.alpha then 8 else 0)
        (if a.flags.depth then 24 else 0)
        (if a.flags.stencil then 8 else 0) = Option.some cfg)
    (halpha : (cfg.alpha_size != 0) = a.flags.alpha)
    (hdepth : (cfg.depth_size != 0) = a.flags.depth)
    (hstencil : (cfg.stencil_size != 0) = a.flags.stencil)
    (hres : env.configFromId cfg.fbconfig_id = cfg) :
    create_context_descriptor env a =
      Except.ok { pixmap_glx_fb_config_id := cfg.fbconfig_id
                  gl_version := a.version } ∧
    context_descriptor_attributes env
        { pixmap_glx_fb_config_id := cfg.fbconfig_id, gl_version := a.version } =
      a := by
  constructor
  · simp [create_context_descriptor, hchoose]
  · simp [context_descriptor_attributes, hres, halpha, hdepth, hstencil]

/-- A config carrying alpha and depth but no stencil. -/
def cfgEx : FBConfig :=
  { fbconfig_id := 42, alpha_size := 8, depth_size := 24, stencil_size := 0 }

/-- A GLX oracle whose query returns `cfgEx` and whose id lookup resolves to
it. -/
def glxEnvEx : GlxEnv :=
  { chooseFBConfig := fun _ _ _ => Option.some cfgEx
    configFromId := fun _ => cfgEx }

/-- ALPHA and DEPTH requested, STENCIL not. -/
def attrsEx : ContextAttributes :=
  { flags := { alpha := true, depth := true, stencil := false }
    version := { major := 3, minor := 3 } }

theorem descriptor_attributes_round_trip_witness :
    create_context_descriptor glxEnvEx attrsEx =
      Except.ok { pixmap_glx_fb_config_id := 42
                  gl_version := { major := 3, minor := 3 } } ∧
    context_descriptor_attributes glxEnvEx
        { pixmap_glx_fb_config_id := 42
          gl_version := { major := 3, minor := 3 } } = attrsEx :=
  descriptor_attributes_round_trip glxEnvEx attrsEx cfgEx rfl rfl rfl rfl rfl

/-- A creation step that succeeds assigns exactly the current counter value as
the context's identity and bumps the counter by one. -/
theorem runCreation_ok (s : CreationStep) (n : ContextID) (c : Context)
    (nn : ContextID) (h : runCreation s n = (Except.ok c, nn)) :
    c.id = n ∧ nn = { val := n.val + 1 } := by
  cases s with
  | create env d =>
      simp only [runCreation] at h
      unfold create_context at h
      split at h
      · simp at h
      · split at h
        · simp at h
        · simp at h
          obtain ⟨h1, h2⟩ := h
          subst h1
          subst h2
          exact ⟨rfl, rfl⟩
  | adopt env =>
      simp only [runCreation] at h
      unfold from_current_context at h
      split at h
      · simp at h
      · split at h
        · simp at h
        · simp at h
          obtain ⟨h1, h2⟩ := h
          subst h1
          subst h2
          exact ⟨rfl, rfl⟩

/-- A creation step that fails does not consume an identity: the counter is
unchanged. -/
theorem runCreation_error (s : CreationStep) (n : ContextID) (e : Error)
    (nn : ContextID) (h : runCreation s n = (Except.error e, nn)) : nn = n := by
  cases s with
  | create env d =>
      simp only [runCreation] at h
      unfold create_context at h
      split at h
      · simp at h
        obtain ⟨-, h2⟩ := h
        subst h2
        rfl
      · split at h
        · simp at h
          obtain ⟨-, h2⟩ := h
          subst h2
          rfl
        · simp at h
  | adopt env =>
      simp only [runCreation] at h
      unfold from_current_context at h
      split at h
      · simp at h
        obtain ⟨-, h2⟩ := h
        subst h2
        rfl
      · split at h
        · simp at h
          obtain ⟨-, h2⟩ := h
          subst h2
          rfl
        · simp at h

/-- The counter never decreases across a creation step. -/
theorem runCreation_counter_le (s : CreationStep) (n : ContextID) :
    n.val ≤ (runCreation s n).2.val := by
  cases s with
  | create env d =>
      simp only [runCreation]
      unfold create_context
      split
      · exact Nat.le_refl _
      · split
        · exact Nat.le_refl _
        · exact Nat.le_succ _
  | adopt env =>
      simp only [runCreation]
      unfold from_current_context
      split
      · exact Nat.le_refl _
      · split
        · exact Nat.le_refl _
        · exact Nat.le_succ _

/-- The counter never decreases across a sequence of creation steps. -/
theorem runCreations_counter_le (steps : List CreationStep) (n : ContextID) :
    n.val ≤ (runCreations steps n).val := by
  induction steps generalizing n with
  | nil => exact le_refl _
  | cons s rest ih =>
      exact le_trans (runCreation_counter_le s n) (ih (runCreation s n).2)

/-- Identities assigned along a sequence of creation steps are strictly
increasing, bounded below by the starting counter and above by the final
counter. -/
theorem creationIds_bounds (steps : List CreationStep) (n : ContextID) :
    (creationIds steps n).Pairwise (· < ·) ∧
    ∀ x ∈ creationIds steps n, n.val ≤ x ∧ x < (runCreations steps n).val := by
  induction steps generalizing n with
  | nil =>
      refine ⟨List.Pairwise.nil, ?_⟩
      intro x hx
      cases hx
  | cons s rest ih =>
      rcases hrun : runCreation s n with ⟨r, nn⟩
      cases r with
      | ok c =>
          obtain ⟨hid, hnn⟩ := runCreation_ok s n c nn hrun
          have hids : creationIds (s :: rest) n = c.id.val :: creationIds rest nn := by
            simp only [creationIds, hrun]
          have hruns : runCreations (s :: rest) n = runCreations rest nn := by
            simp only [runCreations, hrun]
          obtain ⟨ihp, ihb⟩ := ih nn
          have hlt : c.id.val < nn.val := by
            rw [hid, hnn]
            exact Nat.lt_succ_self _
          constructor
          · rw [hids]
            refine List.Pairwise.cons ?_ ihp
            intro y hy
            exact lt_of_lt_of_le hlt (ihb y hy).1
          · intro x hx
            rw [hids] at hx
            rw [hruns]
            rcases List.mem_cons.mp hx with hx | hx
            · subst hx
              refine ⟨by rw [hid], ?_⟩
              exact lt_of_lt_of_le hlt (runCreations_counter_le rest nn)
            · obtain ⟨hlo, hhi⟩ := ihb x hx
              refine ⟨?_, hhi⟩
              calc n.val ≤ nn.val := by rw [hnn]; exact Nat.le_succ _
                _ ≤ x := hlo
      | error e =>
          have hnn := runCreation_error s n e nn hrun
          have hids : creationIds (s :: rest) n = creationIds rest nn := by
            simp only [creationIds, hrun]
          have hruns : runCreations (s :: rest) n = runCreations rest nn := by
            simp only [runCreations, hrun]
          obtain ⟨ihp, ihb⟩ := ih nn
          rw [hids, hruns]
          refine ⟨ihp, fun x hx => ?_⟩
          obtain ⟨hlo, hhi⟩ := ihb x hx
          rw [hnn] at hlo
          exact ⟨hlo, hhi⟩

/-- C7: since both creation paths assign the identity and bump the shared
counter while holding the single process-wide creation lock, any concurrent
history of creations is a sequence of `runCreation` steps; along every such
sequence the assigned identities are strictly increasing, pairwise distinct,
confined to the counter interval the sequence consumed, and never assigned
again by any later sequence of creations. -/
theorem context_ids_process_unique (steps : List CreationStep) (n : ContextID) :
    (creationIds steps n).Pairwise (· < ·) ∧
    (creationIds steps n).Nodup ∧
    (∀ x ∈ creationIds steps n, n.val ≤ x ∧ x < (runCreations steps n).val) ∧
    (∀ steps2, ∀ x ∈ creationIds steps n,
      x ∉ creationIds steps2 (runCreations steps n)) := by
  obtain ⟨hp, hb⟩ := creationIds_bounds steps n
  refine ⟨hp, hp.imp (fun h => Nat.ne_of_lt h), hb, ?_⟩
  intro steps2 x hx hmem
  have h1 := (hb x hx).2
  have h2 := ((creationIds_bounds steps2 (runCreations steps n)).2 x hmem).1
  exact absurd (lt_of_lt_of_le h1 h2) (lt_irrefl x)

theorem context_ids_process_unique_witness :
    ({ val := 0 } : ContextID).val ≤ 0 ∧
    0 < (runCreations [CreationStep.create cenvEx cdEx, CreationStep.adopt aenvEx]
          { val := 0 }).val :=
  (context_ids_process_unique
      [CreationStep.create cenvEx cdEx, CreationStep.adopt aenvEx]
      { val := 0 }).2.2.1 0 (by decide)

end Surfman
